import Mathlib

/-!
Shallow embedding of the OpenGLRenderDevice module of GLEngine
(OpenGLRenderDevice.cpp).  Each public operation of the device is translated
into a pure Lean function on an explicit `DeviceState`, returning the new
state together with the list of calls issued to the underlying OpenGL API
(and error-log writes).  Introspection results coming back from the driver
(shader ids, compile/link status, active uniforms, the GL version, ...) are
supplied through a `GLOracle` record, since the driver is outside the program.
-/

namespace GLEngine

/-! ### Enumerations

The enumeration types come from the class declaration in the header, which is
not part of the sources at hand; the constructor names follow the identifiers
used in the implementation file.  Modelled from the spec: face-cull mode
has a distinguished "none", blend functions have a distinguished "none",
buffer usage has static/dynamic/stream variants. -/

inductive FaceCulling
  | FACE_CULL_NONE | FACE_CULL_FRONT | FACE_CULL_BACK
deriving DecidableEq

inductive DrawFunc
  | DRAW_FUNC_ALWAYS | DRAW_FUNC_NEVER | DRAW_FUNC_LESS | DRAW_FUNC_GREATER
  | DRAW_FUNC_LEQUAL | DRAW_FUNC_GEQUAL | DRAW_FUNC_EQUAL | DRAW_FUNC_NOT_EQUAL
deriving DecidableEq

inductive BlendFunc
  | BLEND_FUNC_NONE | BLEND_FUNC_ONE | BLEND_FUNC_SRC_ALPHA
  | BLEND_FUNC_ONE_MINUS_SRC_ALPHA | BLEND_FUNC_DST_ALPHA
deriving DecidableEq

inductive StencilOp
  | STENCIL_KEEP | STENCIL_ZERO | STENCIL_REPLACE | STENCIL_INCR
  | STENCIL_DECR | STENCIL_INVERT
deriving DecidableEq

inductive BufferUsage
  | USAGE_STATIC_DRAW | USAGE_DYNAMIC_DRAW | USAGE_STREAM_DRAW
deriving DecidableEq

inductive ShaderType
  | GL_VERTEX_SHADER | GL_FRAGMENT_SHADER
deriving DecidableEq

inductive GLCap
  | GL_CULL_FACE | GL_BLEND | GL_STENCIL_TEST | GL_SCISSOR_TEST
deriving DecidableEq

inductive GLBufferTarget
  | GL_ARRAY_BUFFER | GL_ELEMENT_ARRAY_BUFFER | GL_UNIFORM_BUFFER
deriving DecidableEq

inductive PixelStoreName
  | GL_PACK_ALIGNMENT | GL_UNPACK_ALIGNMENT
deriving DecidableEq

/-- The GLenum value of GL_SAMPLER_2D (0x8B5E). -/
def GL_SAMPLER_2D : Nat := 35678

/-- The value (unsigned int)-1, the creation-failure sentinel handle. -/
def SENTINEL : Nat := 4294967295

/-! ### Calls issued to the underlying API

One constructor per external effect the embedded code performs: OpenGL
commands and `std::cerr` log writes.  Pure driver queries whose results the
model receives through the oracle are not traced. -/

inductive GLCall
  | glBindFramebuffer (fbo : Nat)
  | glViewport (x y w h : Nat)
  | glBindVertexArray (vao : Nat)
  | glUseProgram (program : Nat)
  | glEnable (cap : GLCap)
  | glDisable (cap : GLCap)
  | glCullFace (mode : FaceCulling)
  | glDepthMask (flag : Bool)
  | glDepthFunc (f : DrawFunc)
  | glBlendFunc (src dst : BlendFunc)
  | glStencilFunc (f : DrawFunc) (testMask comparisonVal : Nat)
  | glStencilOp (fail passButDepthFail pass : StencilOp)
  | glStencilMask (mask : Nat)
  | glScissor (x y w h : Nat)
  | glPixelStorei (pname : PixelStoreName) (value : Int)
  | glGenVertexArrays (n : Nat)
  | glGenBuffers (n : Nat)
  | glDeleteFramebuffers (fbo : Nat)
  | glDeleteVertexArrays (vao : Nat)
  | glDeleteBuffers (buffers : List Nat)
  | glDeleteSamplers (sampler : Nat)
  | glDeleteTextures (texture : Nat)
  | glBindBuffer (target : GLBufferTarget) (buffer : Nat)
  | glBufferData (target : GLBufferTarget) (size : Nat) (hasData : Bool) (usage : BufferUsage)
  | glBufferSubData (target : GLBufferTarget) (offset size : Nat)
  | glMapBuffer (target : GLBufferTarget)
  | glUnmapBuffer (target : GLBufferTarget)
  | glFramebufferTexture2D (attachment texture mipLevel : Nat)
  | glCreateProgram
  | glCreateShader (ty : ShaderType)
  | glShaderSource (text : List Char)
  | glCompileShader (shader : Nat)
  | glAttachShader (program shader : Nat)
  | glDetachShader (program shader : Nat)
  | glDeleteShader (shader : Nat)
  | glDeleteProgram (program : Nat)
  | glLinkProgram (program : Nat)
  | glValidateProgram (program : Nat)
  | glBindAttribLocation (program location : Nat) (attribName : String)
  | glEnableVertexAttribArray (index : Nat)
  | glVertexAttribPointer (index size stride offset : Nat)
  | glVertexAttribDivisor (index divisor : Nat)
  | glDrawElements (primitiveType count : Nat)
  | glDrawElementsInstanced (primitiveType count instances : Nat)
  | cerrLog (msg : String)
deriving DecidableEq

/-! ### Registry records (`FBOData`, `VertexArray`, `ShaderProgram`) -/

/-- Per-render-target record: `struct FBOData with width, height`. -/
structure FBOData where
  width : Nat
  height : Nat
deriving DecidableEq

/-- Per-vertex-array record, mirroring `struct VertexArray` of the device. -/
structure VertexArray where
  buffers : List Nat
  bufferSizes : List Nat
  numBuffers : Nat
  numElements : Nat
  usage : BufferUsage
  instanceComponentsStartIndex : Nat
deriving DecidableEq

/-- Per-shader-program record, mirroring `struct ShaderProgram` of the device. -/
structure ShaderProgram where
  shaders : List Nat
  uniformMap : List (String × Int)
  samplerMap : List (String × Int)
deriving DecidableEq

/-! ### Association lists standing in for `std::unordered_map` -/

/-- Lookup, as `map.find(k)`. -/
def alookup {κ α : Type} [DecidableEq κ] : List (κ × α) → κ → Option α
  | [], _ => none
  | (k2, v) :: rest, k => if k2 = k then some v else alookup rest k

/-- Assignment `map[k] = v` when `k` is known to be present (or plain overwrite):
replaces the first binding of `k`, appends a fresh binding otherwise. -/
def aset {κ α : Type} [DecidableEq κ] : List (κ × α) → κ → α → List (κ × α)
  | [], k, v => [(k, v)]
  | (k2, v2) :: rest, k, v =>
    if k2 = k then (k, v) :: rest else (k2, v2) :: aset rest k v

/-- Erasure, as `map.erase(it)`: removes the first binding of `k`. -/
def aerase {κ α : Type} [DecidableEq κ] : List (κ × α) → κ → List (κ × α)
  | [], _ => []
  | (k2, v2) :: rest, k =>
    if k2 = k then rest else (k2, v2) :: aerase rest k

/-- Subscript `map[k]` (`operator[]`): returns the stored value, default-inserting a
value-initialized record when the key is absent, together with the possibly
extended map. -/
def agetOrInsert {κ α : Type} [DecidableEq κ] (m : List (κ × α)) (k : κ) (d : α) :
    α × List (κ × α) :=
  match alookup m k with
  | some v => (v, m)
  | none => (d, m ++ [(k, d)])

/-! ### The device state -/

/-- The mutable members of `OpenGLRenderDevice`: the cached state snapshot,
the memoized version queries, and the three handle registries. -/
structure DeviceState where
  shaderVersion : String
  version : Nat
  boundFBO : Nat
  viewportFBO : Nat
  viewportWidth : Nat
  viewportHeight : Nat
  boundVAO : Nat
  boundShader : Nat
  currentFaceCulling : FaceCulling
  currentDepthFunc : DrawFunc
  currentSourceBlend : BlendFunc
  currentDestBlend : BlendFunc
  currentStencilFunc : DrawFunc
  currentStencilTestMask : Nat
  currentStencilWriteMask : Nat
  currentStencilComparisonVal : Nat
  currentStencilFail : StencilOp
  currentStencilPassButDepthFail : StencilOp
  currentStencilPass : StencilOp
  blendingEnabled : Bool
  shouldWriteDepth : Bool
  stencilTestEnabled : Bool
  scissorTestEnabled : Bool
  currentPackAlignment : Int
  currentUnpackAlignment : Int
  fboMap : List (Nat × FBOData)
  vaoMap : List (Nat × VertexArray)
  shaderProgramMap : List (Nat × ShaderProgram)
deriving DecidableEq

/-- The device state right after the constructor body ran: the member
initializer list, plus `fboMap[0] = window size`.  `viewportWidth` and
`viewportHeight` are not initialized by the constructor in the source, so
their indeterminate initial contents are taken as parameters. -/
def mkDevice (windowWidth windowHeight vpW vpH : Nat) : DeviceState where
  shaderVersion := ""
  version := 0
  boundFBO := 0
  viewportFBO := 0
  viewportWidth := vpW
  viewportHeight := vpH
  boundVAO := 0
  boundShader := 0
  currentFaceCulling := .FACE_CULL_NONE
  currentDepthFunc := .DRAW_FUNC_ALWAYS
  currentSourceBlend := .BLEND_FUNC_NONE
  currentDestBlend := .BLEND_FUNC_NONE
  currentStencilFunc := .DRAW_FUNC_ALWAYS
  currentStencilTestMask := 4294967295
  currentStencilWriteMask := 4294967295
  currentStencilComparisonVal := 0
  currentStencilFail := .STENCIL_KEEP
  currentStencilPassButDepthFail := .STENCIL_KEEP
  currentStencilPass := .STENCIL_KEEP
  blendingEnabled := false
  shouldWriteDepth := false
  stencilTestEnabled := false
  scissorTestEnabled := false
  currentPackAlignment := 0
  currentUnpackAlignment := 0
  fboMap := [(0, ⟨windowWidth, windowHeight⟩)]
  vaoMap := []
  shaderProgramMap := []

/-! ### State-cache setters (§ state cache of the device) -/

/-- Embeds `OpenGLRenderDevice::SetFBO`. -/
def setFBO (s : DeviceState) (fbo : Nat) : DeviceState × List GLCall :=
  if fbo = s.boundFBO then (s, [])
  else ({ s with boundFBO := fbo }, [.glBindFramebuffer fbo])

/-- Embeds `OpenGLRenderDevice::SetViewport`.  Note `fboMap[fbo]` default-inserts a
record when the handle is unknown, before the dedup check. -/
def setViewport (s : DeviceState) (fbo : Nat) : DeviceState × List GLCall :=
  let fd := agetOrInsert s.fboMap fbo ⟨0, 0⟩
  let fboData := fd.1
  let s1 := { s with fboMap := fd.2 }
  if fbo = s1.viewportFBO ∧ fboData.width = s1.viewportWidth
      ∧ fboData.height = s1.viewportHeight then
    (s1, [])
  else
    ({ s1 with viewportFBO := fbo, viewportWidth := fboData.width,
               viewportHeight := fboData.height },
     [.glViewport 0 0 fboData.width fboData.height])

/-- Embeds `OpenGLRenderDevice::SetVAO`. -/
def setVAO (s : DeviceState) (vao : Nat) : DeviceState × List GLCall :=
  if vao = s.boundVAO then (s, [])
  else ({ s with boundVAO := vao }, [.glBindVertexArray vao])

/-- Embeds `OpenGLRenderDevice::SetShader`. -/
def setShader (s : DeviceState) (shader : Nat) : DeviceState × List GLCall :=
  if shader = s.boundShader then (s, [])
  else ({ s with boundShader := shader }, [.glUseProgram shader])

/-- Embeds `OpenGLRenderDevice::SetFaceCulling`. -/
def setFaceCulling (s : DeviceState) (faceCulling : FaceCulling) :
    DeviceState × List GLCall :=
  if faceCulling = s.currentFaceCulling then (s, [])
  else
    let calls :=
      if faceCulling = .FACE_CULL_NONE then [GLCall.glDisable .GL_CULL_FACE]
      else if s.currentFaceCulling = .FACE_CULL_NONE then
        [GLCall.glEnable .GL_CULL_FACE, .glCullFace faceCulling]
      else [GLCall.glCullFace faceCulling]
    ({ s with currentFaceCulling := faceCulling }, calls)

/-- Embeds `OpenGLRenderDevice::SetDepthTest`: write mask and comparison function
are dedup-checked independently. -/
def setDepthTest (s : DeviceState) (shouldWrite : Bool) (depthFunc : DrawFunc) :
    DeviceState × List GLCall :=
  let p1 :=
    if shouldWrite ≠ s.shouldWriteDepth then
      ({ s with shouldWriteDepth := shouldWrite }, [GLCall.glDepthMask shouldWrite])
    else (s, [])
  let s1 := p1.1
  if depthFunc = s1.currentDepthFunc then (s1, p1.2)
  else ({ s1 with currentDepthFunc := depthFunc }, p1.2 ++ [.glDepthFunc depthFunc])

/-- Embeds `OpenGLRenderDevice::SetBlending`. -/
def setBlending (s : DeviceState) (sourceBlend destinationBlend : BlendFunc) :
    DeviceState × List GLCall :=
  if sourceBlend = s.currentSourceBlend ∧ destinationBlend = s.currentDestBlend then
    (s, [])
  else
    let calls :=
      if sourceBlend = .BLEND_FUNC_NONE ∨ destinationBlend = .BLEND_FUNC_NONE then
        [GLCall.glDisable .GL_BLEND]
      else if s.currentSourceBlend = .BLEND_FUNC_NONE
          ∨ s.currentDestBlend = .BLEND_FUNC_NONE then
        [GLCall.glEnable .GL_BLEND, .glBlendFunc sourceBlend destinationBlend]
      else [GLCall.glBlendFunc sourceBlend destinationBlend]
    ({ s with currentSourceBlend := sourceBlend, currentDestBlend := destinationBlend },
     calls)

/-- Embeds `OpenGLRenderDevice::SetStencilWriteMask`. -/
def setStencilWriteMask (s : DeviceState) (mask : Nat) : DeviceState × List GLCall :=
  if s.currentStencilWriteMask = mask then (s, [])
  else ({ s with currentStencilWriteMask := mask }, [.glStencilMask mask])

/-- Embeds `OpenGLRenderDevice::SetStencilTest`: four independently dedup-checked
groups (enable flag, comparison triple, op triple, write mask). -/
def setStencilTest (s : DeviceState) (enable : Bool) (stencilFunc : DrawFunc)
    (stencilTestMask stencilWriteMask stencilComparisonVal : Nat)
    (stencilFail stencilPassButDepthFail stencilPass : StencilOp) :
    DeviceState × List GLCall :=
  let p1 :=
    if enable ≠ s.stencilTestEnabled then
      ({ s with stencilTestEnabled := enable },
       [if enable then GLCall.glEnable .GL_STENCIL_TEST
        else GLCall.glDisable .GL_STENCIL_TEST])
    else (s, [])
  let s1 := p1.1
  let p2 :=
    if stencilFunc ≠ s1.currentStencilFunc ∨ stencilTestMask ≠ s1.currentStencilTestMask
        ∨ stencilComparisonVal ≠ s1.currentStencilComparisonVal then
      ({ s1 with currentStencilComparisonVal := stencilComparisonVal,
                 currentStencilTestMask := stencilTestMask,
                 currentStencilFunc := stencilFunc },
       [GLCall.glStencilFunc stencilFunc stencilTestMask stencilComparisonVal])
    else (s1, [])
  let s2 := p2.1
  let p3 :=
    if stencilFail ≠ s2.currentStencilFail ∨ stencilPass ≠ s2.currentStencilPass
        ∨ stencilPassButDepthFail ≠ s2.currentStencilPassButDepthFail then
      ({ s2 with currentStencilFail := stencilFail,
                 currentStencilPass := stencilPass,
                 currentStencilPassButDepthFail := stencilPassButDepthFail },
       [GLCall.glStencilOp stencilFail stencilPassButDepthFail stencilPass])
    else (s2, [])
  let p4 := setStencilWriteMask p3.1 stencilWriteMask
  (p4.1, p1.2 ++ p2.2 ++ p3.2 ++ p4.2)

/-- Embeds `OpenGLRenderDevice::SetScissorTest`: disabling early-returns when
already disabled; enabling always re-applies the rectangle (the rectangle
itself is not cached). -/
def setScissorTest (s : DeviceState) (enable : Bool)
    (startX startY width height : Nat) : DeviceState × List GLCall :=
  if !enable then
    if !s.scissorTestEnabled then (s, [])
    else ({ s with scissorTestEnabled := false }, [.glDisable .GL_SCISSOR_TEST])
  else
    let t := if !s.scissorTestEnabled then [GLCall.glEnable .GL_SCISSOR_TEST] else []
    ({ s with scissorTestEnabled := true }, t ++ [.glScissor startX startY width height])

/-- The pack-alignment dedup block at the top of
`OpenGLRenderDevice::CreateTexture2D`. -/
def applyPackAlignment (s : DeviceState) (packAlignment : Int) :
    DeviceState × List GLCall :=
  if packAlignment ≠ s.currentPackAlignment then
    ({ s with currentPackAlignment := packAlignment },
     [.glPixelStorei .GL_PACK_ALIGNMENT packAlignment])
  else (s, [])

/-- The unpack-alignment dedup block at the top of
`OpenGLRenderDevice::CreateTexture2D`. -/
def applyUnpackAlignment (s : DeviceState) (unpackAlignment : Int) :
    DeviceState × List GLCall :=
  if unpackAlignment ≠ s.currentUnpackAlignment then
    ({ s with currentUnpackAlignment := unpackAlignment },
     [.glPixelStorei .GL_UNPACK_ALIGNMENT unpackAlignment])
  else (s, [])

/-! ### Draw parameters and draw dispatcher -/

/-- The `DrawParameters` argument struct of `Draw`.  Modelled from the spec:
the struct itself is declared in the header; the fields and their use are
those read by `Draw` and `SetDrawParameters` in the implementation file.
`primitiveType` is carried as a raw GLenum number. -/
structure DrawParameters where
  primitiveType : Nat
  faceCulling : FaceCulling
  depthFunc : DrawFunc
  sourceBlend : BlendFunc
  destBlend : BlendFunc
  shouldWriteDepth : Bool
  useScissorTest : Bool
  scissorStartX : Nat
  scissorStartY : Nat
  scissorWidth : Nat
  scissorHeight : Nat
deriving DecidableEq

/-- Embeds `OpenGLRenderDevice::SetDrawParameters`: blend, scissor, face cull,
depth, in that sub-order. -/
def setDrawParameters (s : DeviceState) (dp : DrawParameters) :
    DeviceState × List GLCall :=
  let p1 := setBlending s dp.sourceBlend dp.destBlend
  let p2 := setScissorTest p1.1 dp.useScissorTest dp.scissorStartX dp.scissorStartY
    dp.scissorWidth dp.scissorHeight
  let p3 := setFaceCulling p2.1 dp.faceCulling
  let p4 := setDepthTest p3.1 dp.shouldWriteDepth dp.depthFunc
  (p4.1, p1.2 ++ p2.2 ++ p3.2 ++ p4.2)

/-- Embeds `OpenGLRenderDevice::Draw`. -/
def draw (s : DeviceState) (fbo shader vao : Nat) (dp : DrawParameters)
    (numInstances numElements : Nat) : DeviceState × List GLCall :=
  if numInstances = 0 then (s, [])
  else
    let p1 := setFBO s fbo
    let p2 := setViewport p1.1 fbo
    let p3 := setDrawParameters p2.1 dp
    let p4 := setShader p3.1 shader
    let p5 := setVAO p4.1 vao
    let drawCall :=
      if numInstances = 1 then GLCall.glDrawElements dp.primitiveType numElements
      else GLCall.glDrawElementsInstanced dp.primitiveType numElements numInstances
    (p5.1, p1.2 ++ p2.2 ++ p3.2 ++ p4.2 ++ p5.2 ++ [drawCall])

/-! ### Render-target registry -/

/-- Embeds `OpenGLRenderDevice::CreateRenderTarget`.  The generated framebuffer
name comes from the oracle argument `fbo`. -/
def createRenderTarget (s : DeviceState) (texture width height : Nat)
    (attachment attachmentNumber mipLevel : Nat) (fbo : Nat) :
    Nat × DeviceState × List GLCall :=
  let p1 := setFBO s fbo
  let attachmentTypeGL := attachment + attachmentNumber
  let s2 := { p1.1 with fboMap := aset p1.1.fboMap fbo ⟨width, height⟩ }
  (fbo, s2,
   [GLCall.glGenBuffers 1] ++ p1.2 ++ [.glFramebufferTexture2D attachmentTypeGL texture mipLevel])

/-- Embeds `OpenGLRenderDevice::UpdateRenderTarget`: two assignments through
`fboMap[0]`, ignoring the handle argument. -/
def updateRenderTarget (s : DeviceState) (fbo width height : Nat) :
    DeviceState × List GLCall :=
  let g1 := agetOrInsert s.fboMap 0 ⟨0, 0⟩
  let m1 := aset g1.2 0 { g1.1 with width := width }
  let g2 := agetOrInsert m1 0 ⟨0, 0⟩
  let m2 := aset g2.2 0 { g2.1 with height := height }
  ({ s with fboMap := m2 }, [])

/-- Embeds `OpenGLRenderDevice::ReleaseRenderTarget`. -/
def releaseRenderTarget (s : DeviceState) (fbo : Nat) :
    Nat × DeviceState × List GLCall :=
  if fbo = 0 then (0, s, [])
  else
    match alookup s.fboMap fbo with
    | none => (0, s, [])
    | some _ => (0, { s with fboMap := aerase s.fboMap fbo }, [.glDeleteFramebuffers fbo])

/-! ### Vertex-array registry -/

/-- One hardware vertex-attribute slot produced by `CreateVertexArray`:
its index, scalar width (at most 4), byte stride, byte offset, and whether
`glVertexAttribDivisor(index, 1)` is applied to it. -/
structure AttribSlot where
  index : Nat
  size : Nat
  stride : Nat
  offset : Nat
  perInstance : Bool
deriving DecidableEq

/-- The inner attribute loops of `CreateVertexArray` for one component:
`elementSize / 4` full slots of width 4 followed by, when
`elementSize % 4 != 0`, one slot of width `elementSize % 4`. -/
def componentSlots (attrIndex elementSize : Nat) (inInstancedMode : Bool) :
    List AttribSlot :=
  ((List.range (elementSize / 4)).map fun j =>
    ⟨attrIndex + j, 4, elementSize * 4, 4 * j * 4, inInstancedMode⟩)
  ++ (if elementSize % 4 ≠ 0 then
        [⟨attrIndex + elementSize / 4, elementSize % 4, elementSize * 4,
          4 * (elementSize / 4) * 4, inInstancedMode⟩]
      else [])

/-- The outer buffer loop of `CreateVertexArray`, grouped per component:
`i` is the running component index, `attrIndex` the running slot counter;
a component is in instanced mode when `i >= numVertexComponents`. -/
def buildSlotsGo (numVertexComponents i attrIndex : Nat) :
    List Nat → List (List AttribSlot)
  | [] => []
  | elementSize :: rest =>
    let g := componentSlots attrIndex elementSize (decide (i ≥ numVertexComponents))
    g :: buildSlotsGo numVertexComponents (i + 1) (attrIndex + g.length) rest

/-- Attribute slots of all components of a vertex array, grouped per
component, exactly as laid out by `CreateVertexArray`. -/
def buildComponentSlots (elementSizes : List Nat) (numVertexComponents : Nat) :
    List (List AttribSlot) :=
  buildSlotsGo numVertexComponents 0 0 elementSizes

/-- The GL calls the attribute loops emit for one slot group. -/
def slotCalls (g : List AttribSlot) : List GLCall :=
  g.flatMap fun a =>
    [GLCall.glEnableVertexAttribArray a.index,
     .glVertexAttribPointer a.index a.size a.stride a.offset]
    ++ (if a.perInstance then [GLCall.glVertexAttribDivisor a.index 1] else [])

/-- Byte size uploaded for buffer `i` (instance components upload
`elementSize * sizeof(float)` only; vertex components
`elementSize * sizeof(float) * numVertices`). -/
def bufferDataSize (numVertexComponents numVertices : Nat) (i elementSize : Nat) : Nat :=
  if i ≥ numVertexComponents then elementSize * 4 else elementSize * 4 * numVertices

/-- Embeds `OpenGLRenderDevice::CreateVertexArray`.  The generated vertex-array and
buffer names come from the oracle arguments `vao` and `buffers`; the caller
data pointers are summarized by `hasVertexData`. -/
def createVertexArray (s : DeviceState) (hasVertexData : Bool)
    (vertexElementSizes : List Nat) (numVertexComponents numInstanceComponents : Nat)
    (numVertices numIndices : Nat) (usage : BufferUsage)
    (vao : Nat) (buffers : List Nat) : Nat × DeviceState × List GLCall :=
  let numBuffers := numVertexComponents + numInstanceComponents + 1
  let pVAO := setVAO s vao
  let sizes := (List.range (numBuffers - 1)).map fun i => vertexElementSizes.getD i 0
  let groups := buildComponentSlots sizes numVertexComponents
  let loopCalls := (List.range (numBuffers - 1)).flatMap fun i =>
    let elementSize := vertexElementSizes.getD i 0
    let inInstancedMode := decide (i ≥ numVertexComponents)
    let attributeUsage := if i ≥ numVertexComponents then
      BufferUsage.USAGE_DYNAMIC_DRAW else usage
    [GLCall.glBindBuffer .GL_ARRAY_BUFFER (buffers.getD i 0),
     .glBufferData .GL_ARRAY_BUFFER
       (bufferDataSize numVertexComponents numVertices i elementSize)
       (!inInstancedMode && hasVertexData) attributeUsage]
    ++ slotCalls (groups.getD i [])
  let bufferSizes :=
    ((List.range (numBuffers - 1)).map fun i =>
      bufferDataSize numVertexComponents numVertices i (vertexElementSizes.getD i 0))
    ++ [numIndices * 4]
  let indexCalls :=
    [GLCall.glBindBuffer .GL_ELEMENT_ARRAY_BUFFER (buffers.getD (numBuffers - 1) 0),
     .glBufferData .GL_ELEMENT_ARRAY_BUFFER (numIndices * 4) true usage]
  let vaoData : VertexArray :=
    ⟨buffers, bufferSizes, numBuffers, numIndices, usage, numVertexComponents⟩
  (vao, { pVAO.1 with vaoMap := aset pVAO.1.vaoMap vao vaoData },
   [GLCall.glGenVertexArrays 1] ++ pVAO.2 ++ [.glGenBuffers numBuffers]
     ++ loopCalls ++ indexCalls)

/-- Embeds `OpenGLRenderDevice::UpdateVertexArrayBuffer`.  The data pointer is not
modelled; `dataSize` is the byte count. -/
def updateVertexArrayBuffer (s : DeviceState) (vao bufferIndex : Nat)
    (dataSize : Nat) : DeviceState × List GLCall :=
  if vao = 0 then (s, [])
  else
    match alookup s.vaoMap vao with
    | none => (s, [])
    | some vaoData =>
      let usage := if bufferIndex ≥ vaoData.instanceComponentsStartIndex then
        BufferUsage.USAGE_DYNAMIC_DRAW else vaoData.usage
      let p1 := setVAO s vao
      let bindCall := GLCall.glBindBuffer .GL_ARRAY_BUFFER (vaoData.buffers.getD bufferIndex 0)
      if vaoData.bufferSizes.getD bufferIndex 0 ≥ dataSize then
        (p1.1, p1.2 ++ [bindCall, .glBufferSubData .GL_ARRAY_BUFFER 0 dataSize])
      else
        let grown := { vaoData with
          bufferSizes := vaoData.bufferSizes.set bufferIndex dataSize }
        ({ p1.1 with vaoMap := aset p1.1.vaoMap vao grown },
         p1.2 ++ [bindCall, .glBufferData .GL_ARRAY_BUFFER dataSize true usage])

/-- Embeds `OpenGLRenderDevice::ReleaseVertexArray`. -/
def releaseVertexArray (s : DeviceState) (vao : Nat) :
    Nat × DeviceState × List GLCall :=
  if vao = 0 then (0, s, [])
  else
    match alookup s.vaoMap vao with
    | none => (0, s, [])
    | some vaoData =>
      (0, { s with vaoMap := aerase s.vaoMap vao },
       [.glDeleteVertexArrays vao, .glDeleteBuffers vaoData.buffers])

/-! ### Stateless handle kinds -/

/-- Embeds `OpenGLRenderDevice::ReleaseSampler`. -/
def releaseSampler (s : DeviceState) (sampler : Nat) :
    Nat × DeviceState × List GLCall :=
  if sampler = 0 then (0, s, [])
  else (0, s, [.glDeleteSamplers sampler])

/-- Embeds `OpenGLRenderDevice::ReleaseTexture2D`. -/
def releaseTexture2D (s : DeviceState) (texture2D : Nat) :
    Nat × DeviceState × List GLCall :=
  if texture2D = 0 then (0, s, [])
  else (0, s, [.glDeleteTextures texture2D])

/-- Embeds `OpenGLRenderDevice::UpdateUniformBuffer`: no handle guard; bind, map,
host-side memcpy (not an API call), unmap — unconditionally. -/
def updateUniformBuffer (s : DeviceState) (buffer : Nat) (dataSize : Nat) :
    DeviceState × List GLCall :=
  (s, [.glBindBuffer .GL_UNIFORM_BUFFER buffer,
       .glMapBuffer .GL_UNIFORM_BUFFER,
       .glUnmapBuffer .GL_UNIFORM_BUFFER])

/-- Embeds `OpenGLRenderDevice::ReleaseUniformBuffer`. -/
def releaseUniformBuffer (s : DeviceState) (buffer : Nat) :
    Nat × DeviceState × List GLCall :=
  if buffer = 0 then (0, s, [])
  else (0, s, [.glDeleteBuffers [buffer]])

/-- Embeds `OpenGLRenderDevice::ReleaseShaderProgram`. -/
def releaseShaderProgram (s : DeviceState) (shader : Nat) :
    Nat × DeviceState × List GLCall :=
  if shader = 0 then (0, s, [])
  else
    match alookup s.shaderProgramMap shader with
    | none => (0, s, [])
    | some shaderProgram =>
      (0, { s with shaderProgramMap := aerase s.shaderProgramMap shader },
       (shaderProgram.shaders.flatMap fun sh =>
         [GLCall.glDetachShader shader sh, .glDeleteShader sh])
       ++ [.glDeleteProgram shader])

/-! ### Version detection -/

/-- Driver-side `glGetIntegerv` results and driver introspection, supplied from outside
the program. -/
structure GLOracle where
  programId : Nat
  vertexShaderId : Nat
  fragmentShaderId : Nat
  vertexCompileOk : Bool
  fragmentCompileOk : Bool
  linkOk : Bool
  validateOk : Bool
  glMajorVersion : Int
  glMinorVersion : Int
  activeAttributes : List String
  activeUniformBlocks : List String
  activeUniforms : List (String × Nat)
  uniformBlockIndexOf : String → Int
  uniformLocationOf : String → Int

/-- Embeds `OpenGLRenderDevice::GetVersion`: memoizes
`(unsigned int)(major * 100 + minor * 10)`. -/
def getVersion (gl : GLOracle) (s : DeviceState) : Nat × DeviceState × List GLCall :=
  if s.version ≠ 0 then (s.version, s, [])
  else
    let v := ((gl.glMajorVersion * 100 + gl.glMinorVersion * 10) % (2 ^ 32)).toNat
    (v, { s with version := v }, [])

/-- The error text printed by `GetShaderVersion` for unsupported versions
(note the missing space before "does", as in the source). -/
def shaderVersionError (version : Nat) : String :=
  "Error: OpenGL Version " ++ toString (version / 100) ++ "." ++
    toString ((version / 10) % 10) ++ "does not support shaders."

/-- Embeds `OpenGLRenderDevice::GetShaderVersion`: descending threshold table over
the memoized numeric version; memoizes its own (non-empty) result; the
unsupported branch logs and returns the empty string without memoizing. -/
def getShaderVersion (gl : GLOracle) (s : DeviceState) :
    String × DeviceState × List GLCall :=
  if s.shaderVersion ≠ "" then (s.shaderVersion, s, [])
  else
    let p := getVersion gl s
    let version := p.1
    let s1 := p.2.1
    if version ≥ 330 then
      (toString version, { s1 with shaderVersion := toString version }, p.2.2)
    else if version ≥ 320 then ("150", { s1 with shaderVersion := "150" }, p.2.2)
    else if version ≥ 310 then ("140", { s1 with shaderVersion := "140" }, p.2.2)
    else if version ≥ 300 then ("130", { s1 with shaderVersion := "130" }, p.2.2)
    else if version ≥ 210 then ("120", { s1 with shaderVersion := "120" }, p.2.2)
    else if version ≥ 200 then ("110", { s1 with shaderVersion := "110" }, p.2.2)
    else ("", s1, p.2.2 ++ [.cerrLog (shaderVersionError version)])

/-! ### Shader program pipeline -/

/-- Whether `needle` occurs in `hay` starting exactly at index `i`
(the needle must fit entirely). -/
def occursAt (hay needle : List Char) (i : Nat) : Bool :=
  decide ((hay.drop i).take needle.length = needle)

/-- Search `std::string::find(needle, start)`: the smallest index `>= start` at
which `needle` occurs, `none` for `npos`. -/
def cppFindFrom (hay needle : List Char) (start : Nat) : Option Nat :=
  (((List.range (hay.length + 1)).filter fun i =>
    decide (start ≤ i) && occursAt hay needle i)).head?

/-- The characters of `"#version"`. -/
def versionDirective : List Char := "#version".data

/-- The expression `shaderText.find("\n", shaderText.find("#version"))`: the position of the
first newline at or after the first occurrence of the version directive;
`none` when either search fails (find from `npos` stays `npos`). -/
def findVersionInsertPos (text : List Char) : Option Nat :=
  match cppFindFrom text versionDirective 0 with
  | none => none
  | some p => cppFindFrom text ['\n'] p

/-- Insertion, as `std::string::insert(pos, s)`. -/
def strInsert (text : List Char) (pos : Nat) (s : List Char) : List Char :=
  text.take pos ++ s ++ text.drop pos

/-- Static helper `AddShader`: compiles one stage and attaches it.  The
created shader id and the compile status come from the oracle. -/
def addShader (shaderProgram : Nat) (text : List Char) (ty : ShaderType)
    (shaderId : Nat) (compileOk : Bool) (shaders : List Nat) :
    Bool × List Nat × List GLCall :=
  if shaderId = 0 then
    (false, shaders, [.glCreateShader ty, .cerrLog "Error creating shader type"])
  else
    let t := [GLCall.glCreateShader ty, .glShaderSource text, .glCompileShader shaderId]
    if !compileOk then
      (false, shaders, t ++ [.cerrLog "Error compiling shader type"])
    else
      (true, shaders ++ [shaderId], t ++ [.glAttachShader shaderProgram shaderId])

/-- Static helper `AddAllAttributes`: for versions at or above 320 layout
qualifiers are used and nothing happens; below, every active attribute is
bound to its enumeration index. -/
def addAllAttributes (program : Nat) (version : Nat)
    (activeAttributes : List String) : List GLCall :=
  if version ≥ 320 then []
  else
    activeAttributes.enum.map fun p => GLCall.glBindAttribLocation program p.1 p.2

/-- Static helper `AddShaderUniforms`.  The active uniform blocks and active
uniforms come from the oracle.  Faithful to the source: the block loop runs
over every active block, but the uniform loop bound is the local
`const GLint numUniforms = 0` — the `GL_ACTIVE_UNIFORMS` query writes its
result into `numBlocks` instead — so the uniform loop body never runs. -/
def addShaderUniforms (gl : GLOracle)
    (uniformMap0 samplerMap0 : List (String × Int)) :
    List (String × Int) × List (String × Int) × List GLCall :=
  let uniformMap := gl.activeUniformBlocks.foldl
    (fun m uniformBlockName =>
      aset m uniformBlockName (gl.uniformBlockIndexOf uniformBlockName))
    uniformMap0
  let numUniforms : Nat := 0
  let step := fun (acc : List (String × Int) × List GLCall) (i : Nat) =>
    let u := gl.activeUniforms.getD i ("", 0)
    if u.2 ≠ GL_SAMPLER_2D then
      (acc.1, acc.2 ++ [.cerrLog "Error: Non-sampler2D uniforms currently unsupported!"])
    else
      -- std::string name(&uniformName[0], actualLength - 1): actualLength is
      -- the name length without the terminator, so the stored key loses its
      -- final character.
      let name := u.1.take (u.1.length - 1)
      (aset acc.1 name (gl.uniformLocationOf u.1), acc.2)
  let sp := (List.range numUniforms).foldl step (samplerMap0, [])
  (uniformMap, sp.1, sp.2)

/-- Embeds `OpenGLRenderDevice::CreateShaderProgram`. -/
def createShaderProgram (gl : GLOracle) (s : DeviceState) (shaderText : List Char) :
    Nat × DeviceState × List GLCall :=
  let shaderProgram := gl.programId
  if shaderProgram = 0 then
    (SENTINEL, s, [.glCreateProgram, .cerrLog "Error creating shader program."])
  else
    match findVersionInsertPos shaderText with
    | none =>
      (SENTINEL, s,
       [.glCreateProgram, .cerrLog "Error: Shader program is missing #version directive."])
    | some newlinePos =>
      let defineInsertPosition := newlinePos + 1
      let vertexShaderText :=
        strInsert shaderText defineInsertPosition "#define VERTEX_SHADER_BUILD\n".data
      let fragmentShaderText :=
        strInsert shaderText defineInsertPosition "#define FRAGMENT_SHADER_BUILD\n".data
      let a1 := addShader shaderProgram vertexShaderText .GL_VERTEX_SHADER
        gl.vertexShaderId gl.vertexCompileOk []
      if !a1.1 then (SENTINEL, s, [GLCall.glCreateProgram] ++ a1.2.2)
      else
        let a2 := addShader shaderProgram fragmentShaderText .GL_FRAGMENT_SHADER
          gl.fragmentShaderId gl.fragmentCompileOk a1.2.1
        if !a2.1 then (SENTINEL, s, [GLCall.glCreateProgram] ++ a1.2.2 ++ a2.2.2)
        else
          let t0 := [GLCall.glCreateProgram] ++ a1.2.2 ++ a2.2.2
            ++ [GLCall.glLinkProgram shaderProgram]
          if !gl.linkOk then
            (SENTINEL, s, t0 ++ [.cerrLog "Error linking shader program"])
          else
            let t1 := t0 ++ [GLCall.glValidateProgram shaderProgram]
            if !gl.validateOk then
              (SENTINEL, s, t1 ++ [.cerrLog "Invalid shader program"])
            else
              let pv := getVersion gl s
              let tAttr := addAllAttributes shaderProgram pv.1 gl.activeAttributes
              let pu := addShaderUniforms gl [] []
              let programData : ShaderProgram := ⟨a2.2.1, pu.1, pu.2.1⟩
              let newMap := aset pv.2.1.shaderProgramMap shaderProgram programData
              (shaderProgram, { pv.2.1 with shaderProgramMap := newMap },
               t1 ++ pv.2.2 ++ tAttr ++ pu.2.2)

/-! ### Association-list lemmas -/

theorem alookup_aset_self {κ α : Type} [DecidableEq κ] (m : List (κ × α)) (k : κ) (v : α) :
    alookup (aset m k v) k = some v := by
  induction m with
  | nil => simp [aset, alookup]
  | cons p rest ih =>
    by_cases h : p.1 = k
    · simp [aset, alookup, h]
    · simp [aset, alookup, h, ih]

theorem alookup_aset_ne {κ α : Type} [DecidableEq κ] (m : List (κ × α)) (k k' : κ) (v : α)
    (h : k' ≠ k) : alookup (aset m k v) k' = alookup m k' := by
  have hk : ¬k = k' := fun e => h e.symm
  induction m with
  | nil => simp [aset, alookup, hk]
  | cons p rest ih =>
    by_cases hp : p.1 = k
    · simp [aset, alookup, hp, hk]
    · simp [aset, alookup, hp, ih]

theorem alookup_append {κ α : Type} [DecidableEq κ] (m l : List (κ × α)) (k : κ) :
    alookup (m ++ l) k =
      match alookup m k with
      | some v => some v
      | none => alookup l k := by
  induction m with
  | nil => simp [alookup]
  | cons p rest ih =>
    by_cases hp : p.1 = k
    · simp [alookup, hp]
    · simp [alookup, hp, ih]

/-! ### State-preservation lemmas for the draw sub-operations -/

theorem fboMap_setFBO (s : DeviceState) (fbo : Nat) :
    ((setFBO s fbo).1).fboMap = s.fboMap := by
  unfold setFBO; split <;> rfl

theorem fboMap_setShader (s : DeviceState) (shader : Nat) :
    ((setShader s shader).1).fboMap = s.fboMap := by
  unfold setShader; split <;> rfl

theorem fboMap_setVAO (s : DeviceState) (vao : Nat) :
    ((setVAO s vao).1).fboMap = s.fboMap := by
  unfold setVAO; split <;> rfl

theorem fboMap_setBlending (s : DeviceState) (a b : BlendFunc) :
    ((setBlending s a b).1).fboMap = s.fboMap := by
  unfold setBlending; split <;> rfl

theorem fboMap_setScissorTest (s : DeviceState) (e : Bool) (x y w h : Nat) :
    ((setScissorTest s e x y w h).1).fboMap = s.fboMap := by
  unfold setScissorTest
  by_cases he : e <;> by_cases hs : s.scissorTestEnabled <;> simp [he, hs]

theorem fboMap_setFaceCulling (s : DeviceState) (fc : FaceCulling) :
    ((setFaceCulling s fc).1).fboMap = s.fboMap := by
  unfold setFaceCulling; split <;> rfl

theorem fboMap_setDepthTest (s : DeviceState) (b : Bool) (f : DrawFunc) :
    ((setDepthTest s b f).1).fboMap = s.fboMap := by
  unfold setDepthTest
  by_cases h1 : b ≠ s.shouldWriteDepth <;> simp [h1] <;> split <;> rfl

theorem fboMap_setDrawParameters (s : DeviceState) (dp : DrawParameters) :
    ((setDrawParameters s dp).1).fboMap = s.fboMap := by
  unfold setDrawParameters
  simp [fboMap_setDepthTest, fboMap_setFaceCulling, fboMap_setScissorTest,
    fboMap_setBlending]

/-- Applying `SetViewport` on an unregistered handle default-inserts a zero-size
record and leaves the effective viewport at those zero dimensions. -/
theorem setViewport_inserts_default (s : DeviceState) (fbo : Nat)
    (hm : alookup s.fboMap fbo = none) :
    alookup ((setViewport s fbo).1).fboMap fbo = some ⟨0, 0⟩
    ∧ ((setViewport s fbo).1).viewportFBO = fbo
    ∧ ((setViewport s fbo).1).viewportWidth = 0
    ∧ ((setViewport s fbo).1).viewportHeight = 0 := by
  have hl : alookup (s.fboMap ++ [(fbo, (⟨0, 0⟩ : FBOData))]) fbo = some ⟨0, 0⟩ := by
    rw [alookup_append, hm]; simp [alookup]
  unfold setViewport agetOrInsert
  rw [hm]
  dsimp only
  split_ifs with hc
  · exact ⟨hl, hc.1.symm, hc.2.1.symm, hc.2.2.symm⟩
  · exact ⟨hl, rfl, rfl, rfl⟩

/-- The net effect of `UpdateRenderTarget` on the registry: the handle-0
record becomes `(width, height)`, every other record is untouched, and no
API call is issued. -/
theorem updateRenderTarget_effect (s : DeviceState) (fbo width height : Nat) :
    alookup ((updateRenderTarget s fbo width height).1).fboMap 0
        = some ⟨width, height⟩
    ∧ (∀ k, k ≠ 0 →
        alookup ((updateRenderTarget s fbo width height).1).fboMap k
          = alookup s.fboMap k)
    ∧ (updateRenderTarget s fbo width height).2 = [] := by
  refine ⟨?_, ?_, rfl⟩
  · unfold updateRenderTarget agetOrInsert
    cases hm : alookup s.fboMap 0 with
    | some v => simp only [hm, alookup_aset_self]
    | none => simp only [hm, alookup_aset_self]
  · intro k hk
    unfold updateRenderTarget agetOrInsert
    cases hm : alookup s.fboMap 0 with
    | some v =>
      simp only [hm, alookup_aset_self]
      rw [alookup_aset_ne _ _ _ _ hk, alookup_aset_ne _ _ _ _ hk]
    | none =>
      simp only [hm, alookup_aset_self]
      rw [alookup_aset_ne _ _ _ _ hk, alookup_aset_ne _ _ _ _ hk, alookup_append]
      cases hv : alookup s.fboMap k with
      | some v2 => rfl
      | none =>
        have h0 : ¬(0 : Nat) = k := fun e => hk (Eq.symm e)
        simp [alookup, h0]

/-! ### Claim C2 -/

/-- C2 counterexample: with handle 0, `UpdateRenderTarget` mutates the
registry record of the default target and `UpdateUniformBuffer` issues
bind/map/unmap API calls, so not every `Update*` is a no-op on handle 0. -/
theorem update_handle0_not_noop :
    (updateRenderTarget (mkDevice 3 4 0 0) 0 7 9).1 ≠ mkDevice 3 4 0 0
    ∧ (updateUniformBuffer (mkDevice 3 4 0 0) 0 16).2 ≠ [] := by
  constructor
  · intro h
    have := congrArg DeviceState.fboMap h
    simp [updateRenderTarget, agetOrInsert, alookup, aset, mkDevice] at this
  · intro h
    simp [updateUniformBuffer] at h

/-- C2 (amended): every `Release*` operation and `UpdateVertexArrayBuffer`
are no-ops on handle 0 (no API call, state unchanged); `UpdateRenderTarget`
has no handle guard and always overwrites the handle-0 record; and
`UpdateUniformBuffer` has no handle guard and issues its bind/map/unmap
sequence even for handle 0. -/
theorem handle0_noop_amended (s : DeviceState) (bufferIndex dataSize w h n : Nat) :
    releaseRenderTarget s 0 = (0, s, [])
    ∧ releaseVertexArray s 0 = (0, s, [])
    ∧ releaseSampler s 0 = (0, s, [])
    ∧ releaseTexture2D s 0 = (0, s, [])
    ∧ releaseUniformBuffer s 0 = (0, s, [])
    ∧ releaseShaderProgram s 0 = (0, s, [])
    ∧ updateVertexArrayBuffer s 0 bufferIndex dataSize = (s, [])
    ∧ alookup ((updateRenderTarget s 0 w h).1).fboMap 0 = some ⟨w, h⟩
    ∧ (updateUniformBuffer s 0 n).2
        = [.glBindBuffer .GL_UNIFORM_BUFFER 0, .glMapBuffer .GL_UNIFORM_BUFFER,
           .glUnmapBuffer .GL_UNIFORM_BUFFER] := by
  refine ⟨rfl, rfl, rfl, rfl, rfl, rfl, rfl, ?_, rfl⟩
  exact (updateRenderTarget_effect s 0 w h).1

/-! ### Claim C3 -/

/-- C3 counterexample: re-enabling the scissor test with the identical
rectangle that was just applied re-issues the `glScissor` call, so a
repeated `Set` with identical arguments is not always observably a no-op. -/
theorem repeat_setScissor_not_noop :
    (setScissorTest ((setScissorTest (mkDevice 8 8 0 0) true 1 2 3 4).1)
      true 1 2 3 4).2 ≠ [] := by
  decide

/-- C3 (amended): every `Set<Aspect>` except scissor enabling is a no-op
when called with the cached values (snapshot unchanged, no API call);
disabling the scissor test when already disabled is also a no-op, while
enabling it when already enabled leaves the snapshot unchanged but always
re-emits the `glScissor` rectangle call. -/
theorem repeated_set_noop_amended (s : DeviceState) (x y w h : Nat) :
    setFBO s s.boundFBO = (s, [])
    ∧ setVAO s s.boundVAO = (s, [])
    ∧ setShader s s.boundShader = (s, [])
    ∧ setFaceCulling s s.currentFaceCulling = (s, [])
    ∧ setDepthTest s s.shouldWriteDepth s.currentDepthFunc = (s, [])
    ∧ setBlending s s.currentSourceBlend s.currentDestBlend = (s, [])
    ∧ setStencilTest s s.stencilTestEnabled s.currentStencilFunc
        s.currentStencilTestMask s.currentStencilWriteMask
        s.currentStencilComparisonVal s.currentStencilFail
        s.currentStencilPassButDepthFail s.currentStencilPass = (s, [])
    ∧ setStencilWriteMask s s.currentStencilWriteMask = (s, [])
    ∧ applyPackAlignment s s.currentPackAlignment = (s, [])
    ∧ applyUnpackAlignment s s.currentUnpackAlignment = (s, [])
    ∧ setScissorTest { s with scissorTestEnabled := false } false x y w h
        = ({ s with scissorTestEnabled := false }, [])
    ∧ setScissorTest { s with scissorTestEnabled := true } true x y w h
        = ({ s with scissorTestEnabled := true }, [.glScissor x y w h]) := by
  refine ⟨?_, ?_, ?_, ?_, ?_, ?_, ?_, ?_, ?_, ?_, ?_, ?_⟩
  · simp [setFBO]
  · simp [setVAO]
  · simp [setShader]
  · simp [setFaceCulling]
  · simp [setDepthTest]
  · simp [setBlending]
  · simp [setStencilTest, setStencilWriteMask]
  · simp [setStencilWriteMask]
  · simp [applyPackAlignment]
  · simp [applyUnpackAlignment]
  · simp [setScissorTest]
  · simp [setScissorTest]

/-! ### Claim C4 -/

/-- C4: `UpdateRenderTarget(h, w, ht)` writes `w`, `ht` into the record of
handle 0 regardless of `h`, and leaves every other record — including the
record of `h` itself when `h` is not 0 — unchanged. -/
theorem updateRenderTarget_targets_default (s : DeviceState) (fbo width height : Nat) :
    alookup ((updateRenderTarget s fbo width height).1).fboMap 0
        = some ⟨width, height⟩
    ∧ (∀ k, k ≠ 0 →
        alookup ((updateRenderTarget s fbo width height).1).fboMap k
          = alookup s.fboMap k) :=
  ⟨(updateRenderTarget_effect s fbo width height).1,
   (updateRenderTarget_effect s fbo width height).2.1⟩

/-- Witness for C4 at a concrete live non-default target: handle 5 is
registered with size 10 by 10, `UpdateRenderTarget(5, 7, 9)` resizes the
handle-0 record and leaves the handle-5 record untouched. -/
theorem updateRenderTarget_targets_default_witness :
    alookup ((updateRenderTarget
        { mkDevice 3 4 0 0 with fboMap := [(0, ⟨3, 4⟩), (5, ⟨10, 10⟩)] }
        5 7 9).1).fboMap 0 = some ⟨7, 9⟩
    ∧ alookup ((updateRenderTarget
        { mkDevice 3 4 0 0 with fboMap := [(0, ⟨3, 4⟩), (5, ⟨10, 10⟩)] }
        5 7 9).1).fboMap 5 = some ⟨10, 10⟩ := by
  constructor
  · exact (updateRenderTarget_targets_default _ 5 7 9).1
  · rw [(updateRenderTarget_targets_default
      { mkDevice 3 4 0 0 with fboMap := [(0, ⟨3, 4⟩), (5, ⟨10, 10⟩)] }
      5 7 9).2 5 (by decide)]
    decide

/-! ### Claim C6 -/

theorem vaoMap_setVAO (s : DeviceState) (vao : Nat) :
    ((setVAO s vao).1).vaoMap = s.vaoMap := by
  unfold setVAO; split <;> rfl

theorem getD_set_self (l : List Nat) (i v d : Nat) (h : i < l.length) :
    (l.set i v).getD i d = v := by
  induction l generalizing i with
  | nil => simp at h
  | cons a t ih =>
    cases i with
    | zero => simp [List.set, List.getD]
    | succ j => simpa [List.set, List.getD] using ih j (by simpa using h)

/-- C6: `UpdateVertexArrayBuffer` on a live array and valid buffer index
keeps the recorded capacity when `dataSize` fits, sets it to exactly
`dataSize` when it does not, and never decreases it. -/
theorem updateVertexArrayBuffer_capacity (s : DeviceState)
    (vao bufferIndex dataSize : Nat) (rec : VertexArray)
    (hv : vao ≠ 0) (hr : alookup s.vaoMap vao = some rec)
    (hi : bufferIndex < rec.bufferSizes.length) :
    (dataSize ≤ rec.bufferSizes.getD bufferIndex 0 →
      alookup ((updateVertexArrayBuffer s vao bufferIndex dataSize).1).vaoMap vao
        = some rec)
    ∧ (rec.bufferSizes.getD bufferIndex 0 < dataSize →
      alookup ((updateVertexArrayBuffer s vao bufferIndex dataSize).1).vaoMap vao
        = some { rec with bufferSizes := rec.bufferSizes.set bufferIndex dataSize })
    ∧ (∀ r, alookup ((updateVertexArrayBuffer s vao bufferIndex dataSize).1).vaoMap vao
          = some r →
        rec.bufferSizes.getD bufferIndex 0 ≤ r.bufferSizes.getD bufferIndex 0) := by
  refine ⟨?_, ?_, ?_⟩
  · intro hle
    simp only [updateVertexArrayBuffer, if_neg hv, hr]
    rw [if_pos hle]
    rw [vaoMap_setVAO]
    exact hr
  · intro hlt
    simp only [updateVertexArrayBuffer, if_neg hv, hr]
    rw [if_neg (by omega)]
    rw [vaoMap_setVAO]
    exact alookup_aset_self _ _ _
  · intro r hr2
    by_cases hc : rec.bufferSizes.getD bufferIndex 0 ≥ dataSize
    · simp only [updateVertexArrayBuffer, if_neg hv, hr] at hr2
      rw [if_pos hc, vaoMap_setVAO, hr] at hr2
      cases hr2
      exact Nat.le_refl _
    · simp only [updateVertexArrayBuffer, if_neg hv, hr] at hr2
      rw [if_neg hc, vaoMap_setVAO, alookup_aset_self] at hr2
      cases hr2
      rw [getD_set_self _ _ _ _ hi]
      omega

/-- Concrete example state for the C6 witness: one live vertex array with
handle 3 and recorded capacities 8 and 4. -/
def vaRecEx : VertexArray := ⟨[10, 11], [8, 4], 2, 6, .USAGE_STATIC_DRAW, 1⟩

def devEx : DeviceState := { mkDevice 2 2 0 0 with vaoMap := [(3, vaRecEx)] }

theorem updateVertexArrayBuffer_capacity_witness :
    alookup ((updateVertexArrayBuffer devEx 3 0 4).1).vaoMap 3 = some vaRecEx
    ∧ alookup ((updateVertexArrayBuffer devEx 3 0 12).1).vaoMap 3
        = some { vaRecEx with bufferSizes := [12, 4] } := by
  constructor
  · exact (updateVertexArrayBuffer_capacity devEx 3 0 4 vaRecEx (by decide) (by decide)
      (by decide)).1 (by decide)
  · exact (updateVertexArrayBuffer_capacity devEx 3 0 12 vaRecEx (by decide) (by decide)
      (by decide)).2.1 (by decide)

/-! ### Claim C8 -/

/-- C8: `Draw` with zero instances is a complete no-op; otherwise it binds
target, viewport, draw parameters, shader and vertex array in that order and
ends with a single draw call — non-instanced for one instance, instanced for
two or more. -/
theorem draw_dispatch (s : DeviceState) (fbo shader vao : Nat)
    (dp : DrawParameters) (numElements : Nat) :
    draw s fbo shader vao dp 0 numElements = (s, [])
    ∧ draw s fbo shader vao dp 1 numElements =
        (let p1 := setFBO s fbo
         let p2 := setViewport p1.1 fbo
         let p3 := setDrawParameters p2.1 dp
         let p4 := setShader p3.1 shader
         let p5 := setVAO p4.1 vao
         (p5.1, p1.2 ++ p2.2 ++ p3.2 ++ p4.2 ++ p5.2
           ++ [GLCall.glDrawElements dp.primitiveType numElements]))
    ∧ ∀ k, draw s fbo shader vao dp (k + 2) numElements =
        (let p1 := setFBO s fbo
         let p2 := setViewport p1.1 fbo
         let p3 := setDrawParameters p2.1 dp
         let p4 := setShader p3.1 shader
         let p5 := setVAO p4.1 vao
         (p5.1, p1.2 ++ p2.2 ++ p3.2 ++ p4.2 ++ p5.2
           ++ [GLCall.glDrawElementsInstanced dp.primitiveType numElements (k + 2)])) :=
  ⟨rfl, rfl, fun _ => rfl⟩

/-! ### Claim C9 -/

/-- C9: `GetShaderVersion` maps the memoized version through the threshold
table — `"330"` for 330, `"150"` for 320, empty plus an error log for 190 —
memoizes any non-empty result, and returns a previously memoized value
unchanged without recomputation. -/
theorem getShaderVersion_thresholds (gl : GLOracle) (s : DeviceState)
    (c : Char) (cs : List Char) :
    getShaderVersion gl { s with shaderVersion := ⟨c :: cs⟩ }
      = (⟨c :: cs⟩, { s with shaderVersion := ⟨c :: cs⟩ }, [])
    ∧ getShaderVersion gl { s with shaderVersion := "", version := 330 }
      = ("330", { s with shaderVersion := "330", version := 330 }, [])
    ∧ getShaderVersion gl { s with shaderVersion := "", version := 320 }
      = ("150", { s with shaderVersion := "150", version := 320 }, [])
    ∧ getShaderVersion gl { s with shaderVersion := "", version := 190 }
      = ("", { s with shaderVersion := "", version := 190 },
         [.cerrLog (shaderVersionError 190)]) := by
  refine ⟨?_, ?_, ?_, ?_⟩
  · have hne : (⟨c :: cs⟩ : String) ≠ "" := fun h => by
      have h2 : c :: cs = ([] : List Char) := by
        simpa using congrArg String.data h
      cases h2
    simp [getShaderVersion, hne]
  · simp only [getShaderVersion, getVersion]
    norm_num
    rfl
  · simp [getShaderVersion, getVersion]
  · simp [getShaderVersion, getVersion]

/-! ### Claim C10 -/

/-- C10: `SetViewport` on a handle with no registry record default-inserts a
zero-size record for it and leaves the effective viewport at those zero
dimensions; `Draw` targeting such a handle (with a nonzero instance count)
inserts the record as well. -/
theorem setViewport_unknown_handle (s : DeviceState) (fbo : Nat)
    (hm : alookup s.fboMap fbo = none) :
    alookup ((setViewport s fbo).1).fboMap fbo = some ⟨0, 0⟩
    ∧ ((setViewport s fbo).1).viewportFBO = fbo
    ∧ ((setViewport s fbo).1).viewportWidth = 0
    ∧ ((setViewport s fbo).1).viewportHeight = 0
    ∧ ∀ shader vao dp numElements,
        alookup ((draw s fbo shader vao dp 1 numElements).1).fboMap fbo
          = some ⟨0, 0⟩ := by
  obtain ⟨h1, h2, h3, h4⟩ := setViewport_inserts_default s fbo hm
  refine ⟨h1, h2, h3, h4, ?_⟩
  intro shader vao dp numElements
  have hm1 : alookup ((setFBO s fbo).1).fboMap fbo = none := by
    rw [fboMap_setFBO]; exact hm
  show alookup ((draw s fbo shader vao dp 1 numElements).1).fboMap fbo = some ⟨0, 0⟩
  simp only [draw, if_neg (by decide : ¬(1 : Nat) = 0)]
  rw [fboMap_setVAO, fboMap_setShader, fboMap_setDrawParameters]
  exact (setViewport_inserts_default _ fbo hm1).1

theorem setViewport_unknown_handle_witness :
    alookup ((setViewport (mkDevice 4 4 0 0) 7).1).fboMap 7 = some ⟨0, 0⟩
    ∧ ((setViewport (mkDevice 4 4 0 0) 7).1).viewportFBO = 7 :=
  ⟨(setViewport_unknown_handle (mkDevice 4 4 0 0) 7 (by decide)).1,
   (setViewport_unknown_handle (mkDevice 4 4 0 0) 7 (by decide)).2.1⟩

/-! ### Claim C7 -/

theorem range_map_const {α : Type} (k : Nat) (v : α) :
    (List.range k).map (fun _ => v) = List.replicate k v := by
  induction k with
  | zero => simp
  | succ m ih => rw [List.range_succ, List.map_append, ih, List.replicate_succ']; simp

theorem componentSlots_map_size (a n : Nat) (b : Bool) :
    (componentSlots a n b).map (fun sl => sl.size)
      = List.replicate (n / 4) 4 ++ (if n % 4 ≠ 0 then [n % 4] else []) := by
  unfold componentSlots
  rw [List.map_append, List.map_map]
  congr 1
  · exact range_map_const (n / 4) 4
  · split <;> simp

theorem componentSlots_length (a n : Nat) (b : Bool) :
    (componentSlots a n b).length = (n + 3) / 4 := by
  unfold componentSlots
  by_cases h : n % 4 = 0 <;> simp [h] <;> omega

theorem componentSlots_perInstance (a n : Nat) (b : Bool) :
    ∀ sl ∈ componentSlots a n b, sl.perInstance = b := by
  intro sl hsl
  unfold componentSlots at hsl
  rw [List.mem_append] at hsl
  cases hsl with
  | inl h =>
    obtain ⟨j, _, hj⟩ := List.mem_map.mp h
    rw [← hj]
  | inr h =>
    by_cases hr : n % 4 ≠ 0
    · rw [if_pos hr] at h
      simp at h
      rw [h]
    · rw [if_neg hr] at h
      cases h

theorem componentSlots_map_index (a n : Nat) (b : Bool) :
    (componentSlots a n b).map (fun sl => sl.index)
      = (List.range ((componentSlots a n b).length)).map (fun j => a + j) := by
  rw [componentSlots_length]
  unfold componentSlots
  by_cases h : n % 4 = 0
  · have hlen : (n + 3) / 4 = n / 4 := by omega
    rw [if_neg (by omega : ¬n % 4 ≠ 0), hlen, List.append_nil, List.map_map]
    rfl
  · have hlen : (n + 3) / 4 = n / 4 + 1 := by omega
    rw [hlen, List.range_succ, if_pos h]
    simp only [List.map_append, List.map_map, List.map_cons, List.map_nil]
    rfl

theorem buildSlotsGo_getD (nvc : Nat) :
    ∀ (l : List Nat) (i0 attr i : Nat), i < l.length →
      ∃ a, (buildSlotsGo nvc i0 attr l).getD i []
        = componentSlots a (l.getD i 0) (decide (i0 + i ≥ nvc)) := by
  intro l
  induction l with
  | nil => intro i0 attr i h; simp at h
  | cons n rest ih =>
    intro i0 attr i h
    cases i with
    | zero =>
      refine ⟨attr, ?_⟩
      simp [buildSlotsGo, List.getD]
    | succ j =>
      obtain ⟨a, ha⟩ := ih (i0 + 1) (attr + (componentSlots attr n
        (decide (i0 ≥ nvc))).length) j (by simpa using h)
      refine ⟨a, ?_⟩
      have harith : i0 + 1 + j = i0 + (j + 1) := by omega
      simp only [buildSlotsGo, List.getD, List.getElem?_cons_succ]
      rw [← harith]
      exact ha

/-- C7: each component of element size `n` is packed into `ceil(n / 4)`
consecutive attribute slots — `n / 4` slots of width 4 and, when
`n % 4` is nonzero, one final slot of width `n % 4` — and every slot of an
instance component (index at or past `numVertexComponents`) advances per
instance. -/
theorem createVertexArray_attrib_packing (elementSizes : List Nat)
    (numVertexComponents i : Nat) (h : i < elementSizes.length) :
    ((buildComponentSlots elementSizes numVertexComponents).getD i []).map
        (fun sl => sl.size)
      = List.replicate (elementSizes.getD i 0 / 4) 4
        ++ (if elementSizes.getD i 0 % 4 ≠ 0 then [elementSizes.getD i 0 % 4] else [])
    ∧ ((buildComponentSlots elementSizes numVertexComponents).getD i []).length
      = (elementSizes.getD i 0 + 3) / 4
    ∧ (∀ sl ∈ (buildComponentSlots elementSizes numVertexComponents).getD i [],
        sl.perInstance = decide (i ≥ numVertexComponents))
    ∧ ∃ a, ((buildComponentSlots elementSizes numVertexComponents).getD i []).map
        (fun sl => sl.index)
      = (List.range (((buildComponentSlots elementSizes numVertexComponents).getD
          i []).length)).map (fun j => a + j) := by
  obtain ⟨a, ha⟩ := buildSlotsGo_getD numVertexComponents elementSizes 0 0 i h
  rw [Nat.zero_add] at ha
  unfold buildComponentSlots
  rw [ha]
  exact ⟨componentSlots_map_size a _ _, componentSlots_length a _ _,
    componentSlots_perInstance a _ _, a, componentSlots_map_index a _ _⟩

/-- Witness for C7 at the concrete element sizes of the claim: size 5 gives
slots of widths 4 and 1, size 8 gives two width-4 slots, size 4 gives one
slot; the third component lies in the instance section of a vertex array
with two vertex components and is marked per-instance. -/
theorem createVertexArray_attrib_packing_witness :
    ((buildComponentSlots [5, 8, 4] 2).getD 0 []).map (fun sl => sl.size) = [4, 1]
    ∧ ((buildComponentSlots [5, 8, 4] 2).getD 1 []).map (fun sl => sl.size) = [4, 4]
    ∧ ((buildComponentSlots [5, 8, 4] 2).getD 2 []).map (fun sl => sl.size) = [4]
    ∧ ((buildComponentSlots [5, 8, 4] 2).getD 2 []).length = 1
    ∧ (∀ sl ∈ (buildComponentSlots [5, 8, 4] 2).getD 2 [], sl.perInstance = true) := by
  refine ⟨?_, ?_, ?_, ?_, ?_⟩
  · exact (createVertexArray_attrib_packing [5, 8, 4] 2 0 (by decide)).1
  · exact (createVertexArray_attrib_packing [5, 8, 4] 2 1 (by decide)).1
  · exact (createVertexArray_attrib_packing [5, 8, 4] 2 2 (by decide)).1
  · exact (createVertexArray_attrib_packing [5, 8, 4] 2 2 (by decide)).2.1
  · exact (createVertexArray_attrib_packing [5, 8, 4] 2 2 (by decide)).2.2.1

/-! ### Claim C5 -/

/-- The claim-side notion of a usable version directive: some occurrence of
`"#version"` with a newline at or after it. -/
def hasVersionDirectiveNewline (text : List Char) : Bool :=
  (List.range (text.length + 1)).any fun i =>
    occursAt text versionDirective i
    && (List.range (text.length + 1)).any fun j =>
      decide (i ≤ j) && occursAt text ['\n'] j

theorem cppFindFrom_some {hay needle : List Char} {start q : Nat}
    (h : cppFindFrom hay needle start = some q) :
    start ≤ q ∧ occursAt hay needle q = true ∧ q < hay.length + 1 := by
  unfold cppFindFrom at h
  cases hl : ((List.range (hay.length + 1)).filter fun i =>
      decide (start ≤ i) && occursAt hay needle i) with
  | nil => rw [hl] at h; cases h
  | cons b t =>
    rw [hl] at h
    have hb : b = q := by simpa [List.head?] using h
    have hmem : q ∈ (List.range (hay.length + 1)).filter fun i =>
        decide (start ≤ i) && occursAt hay needle i := by
      rw [hl, ← hb]; exact List.mem_cons_self b t
    obtain ⟨hrange, hpred⟩ := List.mem_filter.mp hmem
    rw [Bool.and_eq_true] at hpred
    obtain ⟨hstart, hocc⟩ := hpred
    exact ⟨of_decide_eq_true hstart, hocc, List.mem_range.mp hrange⟩

theorem findVersionInsertPos_none_of {text : List Char}
    (h : hasVersionDirectiveNewline text = false) :
    findVersionInsertPos text = none := by
  cases he : findVersionInsertPos text with
  | none => rfl
  | some q =>
    exfalso
    unfold findVersionInsertPos at he
    cases hf : cppFindFrom text versionDirective 0 with
    | none => rw [hf] at he; cases he
    | some p =>
      rw [hf] at he
      obtain ⟨_, hoccP, hp⟩ := cppFindFrom_some hf
      obtain ⟨hpq, hoccQ, hq⟩ := cppFindFrom_some he
      have htrue : hasVersionDirectiveNewline text = true := by
        unfold hasVersionDirectiveNewline
        rw [List.any_eq_true]
        refine ⟨p, List.mem_range.mpr hp, ?_⟩
        rw [Bool.and_eq_true]
        refine ⟨hoccP, ?_⟩
        rw [List.any_eq_true]
        refine ⟨q, List.mem_range.mpr hq, ?_⟩
        rw [Bool.and_eq_true]
        exact ⟨decide_eq_true hpq, hoccQ⟩
      rw [htrue] at h
      cases h

/-- C5: on source text with no version directive (no `"#version"` occurrence
followed by a newline), `CreateShaderProgram` returns the sentinel handle,
leaves the device state (hence the program registry) unchanged, and compiles
nothing. -/
theorem createShaderProgram_missing_version (gl : GLOracle) (s : DeviceState)
    (text : List Char) (h : hasVersionDirectiveNewline text = false) :
    (createShaderProgram gl s text).1 = SENTINEL
    ∧ (createShaderProgram gl s text).2.1 = s
    ∧ ∀ sh, GLCall.glCompileShader sh ∉ (createShaderProgram gl s text).2.2 := by
  have hv := findVersionInsertPos_none_of h
  by_cases hp : gl.programId = 0
  · refine ⟨?_, ?_, ?_⟩ <;> simp [createShaderProgram, hp]
  · refine ⟨?_, ?_, ?_⟩ <;> simp [createShaderProgram, hp, hv]

/-- A concrete oracle for a healthy driver: program id 7, shader ids 8 and 9,
every status check passing, GL version 3.3. -/
def oracleOk : GLOracle :=
  ⟨7, 8, 9, true, true, true, true, 3, 3, [], [], [], fun _ => 0, fun _ => 0⟩

theorem createShaderProgram_missing_version_witness :
    (createShaderProgram oracleOk (mkDevice 1 1 0 0) ("void main()".data)).1
      = SENTINEL :=
  (createShaderProgram_missing_version oracleOk (mkDevice 1 1 0 0)
    ("void main()".data) (by decide)).1

/-! ### Claim C1 -/

/-- Oracle for a program whose only active uniform is a sampler-2D named
`"diffuse"` at location 4. -/
def oracleSampler : GLOracle :=
  ⟨7, 8, 9, true, true, true, true, 3, 3, [], [],
   [("diffuse", GL_SAMPLER_2D)], fun _ => 0, fun _ => 4⟩

/-- C1 (failing-input evaluation): the uniform loop of `AddShaderUniforms`
iterates zero times — its bound is the local constant `numUniforms = 0`, the
`GL_ACTIVE_UNIFORMS` query result going to `numBlocks` — so the sampler map
passed in is returned untouched, and a successful `CreateShaderProgram` over
a program with an active sampler-2D uniform registers a record whose sampler
lookup table is empty. -/
theorem createShaderProgram_sampler_table_empty :
    oracleSampler.activeUniforms = [("diffuse", GL_SAMPLER_2D)]
    ∧ alookup ((createShaderProgram oracleSampler (mkDevice 1 1 0 0)
        ("#version 330\nvoid main()\n".data)).2.1).shaderProgramMap 7
      = some ⟨[8, 9], [], []⟩
    ∧ (∀ gl uniformMap0 samplerMap0,
        (addShaderUniforms gl uniformMap0 samplerMap0).2.1 = samplerMap0) := by
  refine ⟨rfl, by decide, fun gl uniformMap0 samplerMap0 => rfl⟩

end GLEngine
